import Mathlib

/-!
Verification of the `ciscosparkapi` session transport layer
(`ciscosparkapi/restsession.py`, with `exceptions.py` and `helperfunc.py`),
as a shallow embedding in Lean 4.

Modelling conventions:
* Python exceptions are `Except PyErr _` values.
* Python `requests` responses are `Response` records carrying the fields
  the session layer reads: status code, parsed `Retry-After` header
  (`int(r.headers.get('Retry-After', 0))`, absent header modelled as 0),
  the JSON body abstracted to the fields the code accesses (`message`,
  `items`), the web-link `next` relation, and an opaque tag standing for
  the attached request object (`r.request`).
* The network is a script: each `_req_wrapper` call consumes successive
  responses from a list (one per attempt of its retry loop); for the
  pagination walker a `server` function maps each URL to the script its
  fetch uses.  Running out of script is the model artifact `none`.
* In-place mutation of Python objects (the caller's `erc` list, the
  deep-copied last response) is modelled with an explicit store of
  values indexed by `Nat` references.
-/

/-- Throttling status code (`_API_THROTTLE_STATUS_CODE = 429`). -/
def API_THROTTLE_STATUS_CODE : Nat := 429

/-- Backoff floor (`_DEFAULT_BACKOFF = 9`): starting Fibonacci index. -/
def DEFAULT_BACKOFF : Nat := 9

/-- `ERC` dict: method-specific default expected response code. -/
def defaultERC : String → Option Nat
  | "GET" => some 200
  | "POST" => some 200
  | "PUT" => some 200
  | "DELETE" => some 204
  | _ => none

/-- `fib(n)` from `restsession.py`: n-th Fibonacci number of the
sequence 0, 1, 1, 2, 3, 5, ... produced by the `_fib` generator. -/
def fib : Nat → Nat
  | 0 => 0
  | 1 => 1
  | n + 2 => fib n + fib (n + 1)

/-- Opaque JSON item inside a page's `items` array. -/
abbrev Item := String

/-- A response body, abstracted to the outcomes the session layer can
observe through `response.json()` and `.get(...)`: the body fails to
parse (`json()` raises `ValueError`), parses to a non-dict (attribute
access on the result raises), or parses to a dict of which the code
reads the `message` and `items` keys. -/
inductive JsonBody where
  | unparseable
  | nonObj
  | obj (message : Option String) (items : Option (List Item))
  deriving DecidableEq, Repr

/-- A `requests` response, restricted to the fields the session reads. -/
structure Response where
  status : Nat
  retryAfter : Nat
  body : JsonBody
  nextUrl : Option String
  request : String
  deriving DecidableEq, Repr

/-- Python exceptions that can escape the session layer in this model. -/
inductive PyErr where
  /-- `SparkApiError` successfully constructed and raised. -/
  | api (code : Nat) (request : String) (response : Response)
      (response_text : Option String) (error_message : String)
  /-- `ValueError` from `response.json()` on an unparseable body. -/
  | valueErrorJson
  /-- `AttributeError`: `.get` on a parsed non-dict body. -/
  | attributeError
  /-- `TypeError` from `_process` on an `erc` that is neither int nor list. -/
  | typeError
  /-- `ValueError("Unexpected method ...")` from `_process_args`. -/
  | valueErrorMethod
  /-- `AssertionError`: `assert isinstance(json_page, dict)` in `get_items`. -/
  | assertionError
  /-- `ciscosparkapiException`: `'items' object not found in JSON data`. -/
  | sparkException
  deriving DecidableEq, Repr

/-- Python `"%s" % x` where `x` is a string or `None`. -/
def pyStr : Option String → String
  | some s => s
  | none => "None"

/-- `SparkApiError.__init__` (exceptions.py lines 33-42): stores the
code, request and response, then evaluates
`response.json().get('message')` — which itself raises when the body is
unparseable or not a dict, in which case no `SparkApiError` is ever
constructed and that inner exception propagates instead. -/
def mkSparkApiError (response_code : Nat) (response : Response) :
    Except PyErr PyErr :=
  match response.body with
  | .unparseable => .error .valueErrorJson
  | .nonObj => .error .attributeError
  | .obj message _ =>
      .ok (.api response_code response.request response message
        ("Response Code [" ++ toString response_code ++ "] - " ++ pyStr message))

/-- Tail of `_req_wrapper` (restsession.py lines 170-174): the response
validator.  `if not r.status_code in erc: raise SparkApiError(...)`. -/
def validate (erc : List Nat) (r : Response) : Except PyErr Response :=
  if r.status ∈ erc then .ok r
  else
    match mkSparkApiError r.status r with
    | .ok e => .error e
    | .error inner => .error inner

/-- Does this outcome consist of a successfully raised `SparkApiError`
carrying status code `c`? -/
def raisesApiWithCode (c : Nat) : Except PyErr Response → Bool
  | .error (.api code _ _ _ _) => code = c
  | _ => false

/-- Did the call return normally? -/
def isOkB : Except PyErr Response → Bool
  | .ok _ => true
  | .error _ => false

/-- The caller-supplied `erc` keyword value: an int, a list, or
something else (rejected with `TypeError`). -/
inductive ErcArg where
  | int (n : Nat)
  | list (l : List Nat)
  | other
  deriving DecidableEq, Repr

/-- `_process` lines 186-192: defaulting and coercion of `erc` to a
list (`none` models an absent `erc` keyword). -/
def ercListOf (what : String) (ercArg : Option ErcArg) : Except PyErr (List Nat) :=
  match ercArg with
  | none =>
      match defaultERC what with
      | some n => .ok [n]
      | none => .error .typeError
  | some (.int n) => .ok [n]
  | some (.list l) => .ok l
  | some .other => .error .typeError

/-- `_process` lines 195-196: `if 429 in ercList: ercList.remove(429)`.
Python `list.remove` deletes only the first occurrence, which
`List.erase` mirrors. -/
def ercFilter (ercList : List Nat) : List Nat :=
  if API_THROTTLE_STATUS_CODE ∈ ercList then ercList.erase API_THROTTLE_STATUS_CODE
  else ercList

example : ercFilter [200, 429, 404] = [200, 404] := by decide
example : ercFilter [429, 429] = [429] := by decide
example : fib DEFAULT_BACKOFF = 34 := by decide

/-- Values of call keyword arguments, as `_process_args` discriminates
them: text (`basestring`), datetime, or anything else (left untouched).
`dict` is the structured payload `_process_args` itself builds. -/
inductive PyVal where
  | str (s : String)
  | date (d : String)
  | num (n : Int)
  | bool (b : Bool)
  | dict (entries : List (String × PyVal))
  deriving Repr

/-- `helperfunc.utf8`: decodes byte strings to unicode.  Lean strings
are already unicode, so this is the identity on the model. -/
def utf8 (s : String) : String := s

/-- `helperfunc.sparkISO8601`: `dt.strftime('%Y-%m-%dT%H:%M:%S.000Z')`.
The datetime is abstracted to its strftime rendering `d`. -/
def sparkISO8601 (d : String) : String := d

/-- The in-place value encoding of `_process_args` (lines 65-71):
strings through `utf8`, datetimes through `sparkISO8601`, anything
else untouched. -/
def encodeVal : PyVal → PyVal
  | .str s => .str (utf8 s)
  | .date d => .str (sparkISO8601 d)
  | v => v

/-- `_process_args` main loop (lines 64-74): encode each value in
place, and move entries whose key is in `apiattr` out of the kwargs
into the `data` payload.  Returns (remaining kwargs, data). -/
def splitArgs (apiattr : List String) :
    List (String × PyVal) → List (String × PyVal) × List (String × PyVal)
  | [] => ([], [])
  | (k, v) :: rest =>
      let v' := encodeVal v
      let (remaining, data) := splitArgs apiattr rest
      if k ∈ apiattr then (remaining, (k, v') :: data)
      else ((k, v') :: remaining, data)

/-- `_process_args(what, apiattr, args)` (restsession.py lines 58-83):
returns the transport kwargs, with the collected payload attached under
`json` (POST/PUT) or `params` (GET/DELETE) when non-empty.  The only
failure is `ValueError` on an unexpected method; no check of any kind
is made on unrecognized leftover kwargs. -/
def processArgs (what : String) (apiattr : List String)
    (args : List (String × PyVal)) : Except PyErr (List (String × PyVal)) :=
  let p := splitArgs apiattr args
  if p.2.isEmpty then .ok p.1
  else if what = "POST" ∨ what = "PUT" then .ok (p.1 ++ [("json", .dict p.2)])
  else if what = "GET" ∨ what = "DELETE" then .ok (p.1 ++ [("params", .dict p.2)])
  else .error .valueErrorMethod

/-- One throttled iteration of the `_req_wrapper` loop (lines 150-162),
after the request returned 429: compute `sleep_time` and the new step,
invoke the callback if configured.  Fields: the computed sleep time,
the step after the iteration, whether the callback was invoked (and so
received the sleep time), and whether the loop runs again. -/
structure ThrottleStep where
  sleep : Nat
  stepAfter : Nat
  callbackInvoked : Bool
  retry : Bool
  deriving Repr

/-- Lines 151-162 of `_req_wrapper`.  Note two asymmetries of the
source: the step is reset to the floor by a positive `Retry-After`
*before* the callback block, and the `+= 1` increment happens only
when a callback is configured (it sits inside the `if` on line 160). -/
def throttleAttempt (callback : Option (Nat → Bool)) (retryAfter : Nat)
    (step : Nat) : ThrottleStep :=
  let sleep := if retryAfter > 0 then retryAfter else fib step
  let step1 := if retryAfter > 0 then DEFAULT_BACKOFF else step
  match callback with
  | none => ⟨sleep, step1, false, false⟩
  | some cb => ⟨sleep, step1 + 1, true, cb sleep⟩

/-- Result of the `_req_wrapper` `while` loop: the final response `r`,
the backoff step on exit, the sleep times passed to the callback, and
the number of HTTP requests issued. -/
structure LoopOut where
  resp : Response
  step : Nat
  waits : List Nat
  attempts : Nat
  deriving Repr

/-- The `while not done` loop of `_req_wrapper` (lines 145-166) over a
script of responses (one consumed per attempt).  A non-throttled
response decrements the step when above the floor and exits; a
throttled one runs `throttleAttempt` and loops only when the callback
approved.  `none` means the script ran out while the loop would
continue (model artifact). -/
def reqLoop (callback : Option (Nat → Bool)) :
    List Response → Nat → Option LoopOut
  | [], _ => none
  | r :: rest, step =>
      if r.status = API_THROTTLE_STATUS_CODE then
        let a := throttleAttempt callback r.retryAfter step
        if a.retry then
          match reqLoop callback rest a.stepAfter with
          | none => none
          | some o => some ⟨o.resp, o.step, a.sleep :: o.waits, o.attempts + 1⟩
        else
          some ⟨r, a.stepAfter, if a.callbackInvoked then [a.sleep] else [], 1⟩
      else
        some ⟨r, if step > DEFAULT_BACKOFF then step - 1 else step, [], 1⟩

/-- Step component of a loop outcome. -/
def stepAfter? (o : Option LoopOut) : Option Nat := o.map LoopOut.step

/-- Response component of a loop outcome. -/
def loopResp (o : Option LoopOut) : Option Response := o.map LoopOut.resp

/-- Waits component of a loop outcome. -/
def loopWaits (o : Option LoopOut) : Option (List Nat) := o.map LoopOut.waits

/-- A sequence of calls on one session: each call consumes its script
and threads the backoff step (`self._ratelimit_step`) to the next. -/
def runCalls (callback : Option (Nat → Bool)) (calls : List (List Response))
    (step : Nat) : Nat :=
  calls.foldl (fun s script =>
    match reqLoop callback script s with
    | none => s
    | some o => o.step) step

example : stepAfter? (reqLoop none [⟨200, 0, .obj none none, none, "q"⟩] 9)
    = some 9 := by decide
example : stepAfter? (reqLoop (some fun _ => true)
    [⟨429, 0, .obj none none, none, "q"⟩, ⟨200, 0, .obj none none, none, "q"⟩] 9)
    = some 9 := by decide

/-- Does `needle` occur as a contiguous subsequence of the haystack? -/
def containsSeq (needle : List Char) : List Char → Bool
  | [] => needle.isEmpty
  | c :: rest => needle.isPrefixOf (c :: rest) || containsSeq needle rest

/-- Does the URL carry a scheme and network location?  Approximation of
`urlparse` sufficient for absolute-vs-relative discrimination. -/
def isAbsoluteUrl (u : String) : Bool := containsSeq "://".toList u.toList

/-- Model of `urlparse.urljoin(base, url)` (Python stdlib, external to
the repository) restricted to the behaviour the session exercises: an
absolute `url` replaces the base entirely; relative resolution is
approximated by concatenation (no theorem below depends on the
relative case beyond the join being applied). -/
def urljoin (base url : String) : String :=
  if isAbsoluteUrl url then url else base ++ url

/-- Observable outcome of one `RestSession._process` call: the
absolute URL requested, the processed kwargs handed to
`requests.request`, how many HTTP attempts were issued, the sleep
times passed to the rate-limit callback, the backoff step afterwards,
the recorded `_last_response` (value of the `deepcopy`), and the
returned response or raised exception. -/
structure ProcOut where
  url : String
  kwargs : List (String × PyVal)
  attempts : Nat
  waits : List Nat
  step : Nat
  lastResponse : Option Response
  result : Except PyErr Response

/-- `RestSession._process` (lines 176-200) composed with
`_req_wrapper` (lines 125-174).  `server` maps the absolute URL to the
script of responses the successive attempts of this call receive.
The `erc` keyword is modelled as the separate `ercArg` argument
(the source pops it out of `kwargs` first thing).  `none` is the
script-exhaustion artifact of `reqLoop`. -/
def processModel (callback : Option (Nat → Bool))
    (server : String → List Response) (base : String) (what : String)
    (url : String) (apiattr : List String) (kwargs : List (String × PyVal))
    (ercArg : Option ErcArg) (step : Nat) : Option ProcOut :=
  let absUrl := urljoin base url
  match ercListOf what ercArg with
  | .error e => some ⟨absUrl, kwargs, 0, [], step, none, .error e⟩
  | .ok ercL =>
      match processArgs what apiattr kwargs with
      | .error e => some ⟨absUrl, kwargs, 0, [], step, none, .error e⟩
      | .ok kw =>
          match reqLoop callback (server absUrl) step with
          | none => none
          | some o =>
              some ⟨absUrl, kw, o.attempts, o.waits, o.step, some o.resp,
                validate (ercFilter ercL) o.resp⟩

/-- `_extract_and_parse_json(response)` = `response.json()`. -/
def extractAndParseJson (r : Response) : Except PyErr JsonBody :=
  match r.body with
  | .unparseable => .error .valueErrorJson
  | b => .ok b

/-- What a pagination walk observably did: page bodies yielded by
`get_pages`, the `_process` calls it made (with their outcomes), the
exception that ended the walk (`none` = clean `StopIteration`), and
the final backoff step. -/
structure PageWalk where
  pages : List JsonBody
  requests : List ProcOut
  error : Option PyErr
  step : Nat

/-- `RestSession.get_pages` (lines 245-266), fuelled.  Fetches `url`,
yields the parsed body, and follows the `next` link — crucially with
*no* caller kwargs and no `erc` override on follow-up requests
(line 264: `self._process('GET', next_url, apiattr)`). -/
def getPagesAux (callback : Option (Nat → Bool))
    (server : String → List Response) (base : String)
    (apiattr : List String) :
    Nat → String → List (String × PyVal) → Option ErcArg → Nat →
    Option PageWalk
  | 0, _, _, _, _ => none
  | fuel + 1, url, kwargs, ercArg, step =>
      match processModel callback server base "GET" url apiattr kwargs ercArg step with
      | none => none
      | some p =>
          match p.result with
          | .error e => some ⟨[], [p], some e, p.step⟩
          | .ok r =>
              match extractAndParseJson r with
              | .error e => some ⟨[], [p], some e, p.step⟩
              | .ok body =>
                  match r.nextUrl with
                  | none => some ⟨[body], [p], none, p.step⟩
                  | some nu =>
                      match getPagesAux callback server base apiattr fuel nu [] none p.step with
                      | none => none
                      | some w => some ⟨body :: w.pages, p :: w.requests, w.error, w.step⟩

/-- The items a page contributes to the stream (empty when the page is
not a dict-with-items; those cases raise instead, see `flattenItems`). -/
def pageItems : JsonBody → List Item
  | .obj _ (some its) => its
  | _ => []

/-- Is the page a dict carrying an `items` key? -/
def isItemsPage : JsonBody → Bool
  | .obj _ (some _) => true
  | _ => false

/-- The page-flattening loop of `RestSession.get_items` (lines
272-287): for each page, `assert isinstance(json_page, dict)`, then
yield the elements of its `items` value, or raise
`ciscosparkapiException` when the key is missing.  Returns the items
yielded before any error, and the error if one was raised.
(`unparseable` cannot reach this point — such pages already raised
inside `get_pages` — but the function is total.) -/
def flattenItems : List JsonBody → List Item × Option PyErr
  | [] => ([], none)
  | .obj _ (some its) :: rest =>
      let p := flattenItems rest
      (its ++ p.1, p.2)
  | .obj _ none :: _ => ([], some .sparkException)
  | .nonObj :: _ => ([], some .assertionError)
  | .unparseable :: _ => ([], some .assertionError)

/-- `RestSession.get_items` (lines 268-287) on a completed walk: the
item stream and the exception ending it.  An error raised while
flattening a page precedes any error the page generator would raise
afterwards. -/
def getItemsModel (w : PageWalk) : List Item × Option PyErr :=
  let p := flattenItems w.pages
  match p.2 with
  | some e => (p.1, some e)
  | none => (p.1, w.error)

/-- Total number of HTTP requests a walk issued. -/
def walkRequestCount (w : PageWalk) : Nat :=
  (w.requests.map ProcOut.attempts).sum

/-- `self._last_response = deepcopy(r)` (line 169), with Python object
identity made explicit: `store` holds the response objects, `live` is
the reference `requests` keeps to the live response.  `copy.deepcopy`
allocates a fresh object with the same value; the session then holds
the fresh reference.  Returns (new store, reference held in
`_last_response`). -/
def recordLastResponse (store : List Response) (live : Nat)
    (default : Response) : List Response × Nat :=
  (store ++ [store.getD live default], store.length)

/-- The `erc` 429 filter of `_process` (lines 189-196) with Python
aliasing made explicit: `ercList = erc` binds the *same* list object,
and `ercList.remove(429)` mutates it in place.  `heap` holds the
caller-reachable list objects; `ρ` is the caller's reference to the
supplied list.  Returns (heap after the filter, reference used as the
expected-code list for validation). -/
def processErcHeap (heap : List (List Nat)) (ρ : Nat) :
    List (List Nat) × Nat :=
  let l := heap.getD ρ []
  if API_THROTTLE_STATUS_CODE ∈ l then
    (heap.set ρ (l.erase API_THROTTLE_STATUS_CODE), ρ)
  else (heap, ρ)

/-- Decidable equality of call outcomes, for concrete evaluation. -/
instance : DecidableEq (Except PyErr Response) := fun a b =>
  match a, b with
  | .ok x, .ok y => decidable_of_iff (x = y) (by simp)
  | .error x, .error y => decidable_of_iff (x = y) (by simp)
  | .ok _, .error _ => isFalse (by simp)
  | .error _, .ok _ => isFalse (by simp)

/-- Did the body parse as a dict? -/
def bodyIsObj : JsonBody → Bool
  | .obj _ _ => true
  | _ => false

/-- A plain 200 response with a parseable dict body. -/
def r200ok : Response := ⟨200, 0, .obj none (some []), none, "GET /things"⟩

/-- A 404 whose body is a dict with a `message` field. -/
def r404obj : Response := ⟨404, 0, .obj (some "Not Found") none, none, "GET /things"⟩

/-- A 404 whose body is not parseable JSON. -/
def r404bad : Response := ⟨404, 0, .unparseable, none, "GET /things"⟩

/-- A throttling response: 429, no `Retry-After` header. -/
def r429plain : Response := ⟨429, 0, .obj none none, none, "GET /things"⟩

/-- A throttling response carrying `Retry-After: 5`. -/
def r429ra5 : Response := ⟨429, 5, .obj none none, none, "GET /things"⟩

example : validate [200] r200ok = .ok r200ok := by decide
example : isAbsoluteUrl "https://x.test/p" = true := by decide
example : isAbsoluteUrl "widgets" = false := by decide

/-- C1, counterexample.  The claim says a response with status outside
`S` (and not 429) always raises `ApiError` carrying that status.  For
a 404 whose body is not parseable JSON, `SparkApiError.__init__`
evaluates `response.json()`, which raises `ValueError`; the raised
exception is therefore not a `SparkApiError` at all. -/
theorem c1_counterexample :
    validate [200] r404bad = Except.error PyErr.valueErrorJson ∧
    raisesApiWithCode 404 (validate [200] r404bad) = false := by decide

/-- C1 (amended): a response whose status is in the expected set is
returned unchanged; one whose status is outside the set raises
`SparkApiError` carrying exactly that status *provided the response
body parses as a dict* (otherwise the error constructor itself fails
and the body-parse exception propagates instead, see
`c1_counterexample`). -/
theorem c1_validator (erc : List Nat) (r : Response) :
    (r.status ∈ erc → validate erc r = Except.ok r) ∧
    (r.status ∉ erc → bodyIsObj r.body = true →
      raisesApiWithCode r.status (validate erc r) = true) := by
  constructor
  · intro h
    simp [validate, h]
  · intro h hb
    cases hr : r.body with
    | obj m its =>
        simp [validate, h, mkSparkApiError, hr, raisesApiWithCode]
    | unparseable => simp [hr, bodyIsObj] at hb
    | nonObj => simp [hr, bodyIsObj] at hb

/-- C1 witness: the amended theorem applied at concrete inputs. -/
theorem c1_witness :
    validate [200] r200ok = Except.ok r200ok ∧
    raisesApiWithCode r404obj.status (validate [200] r404obj) = true :=
  ⟨(c1_validator [200] r200ok).1 (by decide),
   (c1_validator [200] r404obj).2 (by decide) (by decide)⟩

/-- C2, counterexample.  The claim quantifies over every call whose
caller-supplied expected-code collection contains 429 and asserts 429
is removed before validation, so that a non-retried 429 never
validates as a success.  But `list.remove(429)` deletes only the
first occurrence: supply `erc=[429, 429]` and a 429 remains, the
retry loop exits after one un-retried attempt (no callback), and the
429 response validates as a success. -/
theorem c2_counterexample :
    ercFilter [429, 429] = [429] ∧
    loopResp (reqLoop none [r429plain] DEFAULT_BACKOFF) = some r429plain ∧
    validate (ercFilter [429, 429]) r429plain = Except.ok r429plain := by
  refine ⟨by decide, rfl, rfl⟩

/-- C2 (amended): for a *duplicate-free* caller-supplied list
containing 429 (the claim's "set"), the filter removes 429 entirely;
a 429 response that is not retried (no callback, or a callback that
refuses) then never validates as a success, and raises
`SparkApiError` carrying 429 whenever its body parses as a dict (an
unparseable body propagates the parse error instead, cf. C1). -/
theorem c2_filter (erc : List Nat) (r : Response) (rest : List Response)
    (cb : Option (Nat → Bool)) (step : Nat)
    (hnd : erc.Nodup) (hmem : API_THROTTLE_STATUS_CODE ∈ erc)
    (hst : r.status = API_THROTTLE_STATUS_CODE)
    (hcb : cb = none ∨ cb = some fun _ => false) :
    API_THROTTLE_STATUS_CODE ∉ ercFilter erc ∧
    loopResp (reqLoop cb (r :: rest) step) = some r ∧
    isOkB (validate (ercFilter erc) r) = false ∧
    (bodyIsObj r.body = true →
      raisesApiWithCode API_THROTTLE_STATUS_CODE (validate (ercFilter erc) r) = true) := by
  have hnot : API_THROTTLE_STATUS_CODE ∉ ercFilter erc := by
    rw [ercFilter, if_pos hmem]
    exact hnd.not_mem_erase
  have hloop : loopResp (reqLoop cb (r :: rest) step) = some r := by
    rcases hcb with h | h <;>
      simp [reqLoop, hst, throttleAttempt, h, loopResp]
  have hmemr : r.status ∉ ercFilter erc := by rw [hst]; exact hnot
  refine ⟨hnot, hloop, ?_, ?_⟩
  · rw [validate, if_neg hmemr]
    cases hr : r.body <;> simp [mkSparkApiError, hr, isOkB]
  · intro hb
    cases hr : r.body with
    | obj m its =>
        rw [validate, if_neg hmemr]
        simp [mkSparkApiError, hr, raisesApiWithCode, hst]
    | unparseable => simp [hr, bodyIsObj] at hb
    | nonObj => simp [hr, bodyIsObj] at hb

/-- C2 witness: the amended theorem at `erc=[200,429]`, a bare 429
response, no callback. -/
theorem c2_witness :
    API_THROTTLE_STATUS_CODE ∉ ercFilter [200, 429] ∧
    loopResp (reqLoop none [r429plain] 9) = some r429plain ∧
    isOkB (validate (ercFilter [200, 429]) r429plain) = false ∧
    raisesApiWithCode API_THROTTLE_STATUS_CODE
      (validate (ercFilter [200, 429]) r429plain) = true := by
  have h := c2_filter [200, 429] r429plain [] none 9
    (by decide) (by decide) (by decide) (Or.inl rfl)
  exact ⟨h.1, h.2.1, h.2.2.1, h.2.2.2 (by decide)⟩

/-- C3, counterexample.  The claim: on *every* throttled attempt whose
response lacks a positive `Retry-After`, the backoff step increases by
exactly one.  With no rate-limit callback registered, the increment
(line 162, inside `if self._ratelimit_callback is not None`) is never
executed: one throttled attempt from step 9 leaves the step at 9, not
9 + 1. -/
theorem c3_counterexample :
    stepAfter? (reqLoop none [r429plain] DEFAULT_BACKOFF) = some DEFAULT_BACKOFF ∧
    (stepAfter? (reqLoop none [r429plain] DEFAULT_BACKOFF)
        == some (DEFAULT_BACKOFF + 1)) = false := by
  refine ⟨rfl, by decide⟩

/-- C3 (amended): the step increment accompanies the callback
invocation, so a throttled attempt without positive `Retry-After`
increases the step by one exactly when a callback is registered (and
leaves it unchanged otherwise); a throttled attempt with a positive
`Retry-After` uses that value verbatim as the wait and resets the step
to the floor *before* the callback-increment, landing at floor + 1
with a callback (floor without).  The concrete scenario holds: with a
registered policy approving the wait, a single throttle carrying
`Retry-After: 5` followed by a non-throttled response passes exactly
one wait of 5 seconds to the policy, and the step is at the floor both
before and after the call (the success decrements floor + 1 back to
the floor). -/
theorem c3_backoff :
    (∀ (cb : Nat → Bool) (step : Nat),
      throttleAttempt (some cb) 0 step = ⟨fib step, step + 1, true, cb (fib step)⟩) ∧
    (∀ step : Nat, throttleAttempt none 0 step = ⟨fib step, step, false, false⟩) ∧
    (∀ (cb : Nat → Bool) (ra step : Nat), ra > 0 →
      throttleAttempt (some cb) ra step = ⟨ra, DEFAULT_BACKOFF + 1, true, cb ra⟩) ∧
    (∀ (ra step : Nat), ra > 0 →
      throttleAttempt none ra step = ⟨ra, DEFAULT_BACKOFF, false, false⟩) ∧
    (∀ (cb : Nat → Bool) (r : Response), cb 5 = true →
      r.status ≠ API_THROTTLE_STATUS_CODE →
      reqLoop (some cb) [r429ra5, r] DEFAULT_BACKOFF
        = some ⟨r, DEFAULT_BACKOFF, [5], 2⟩) := by
  refine ⟨?_, ?_, ?_, ?_, ?_⟩
  · intro cb step; simp [throttleAttempt]
  · intro step; simp [throttleAttempt]
  · intro cb ra step hra; simp [throttleAttempt, hra]
  · intro ra step hra; simp [throttleAttempt, hra]
  · intro cb r hcb hr
    simp only [API_THROTTLE_STATUS_CODE] at hr
    simp [reqLoop, r429ra5, throttleAttempt, hcb, hr, DEFAULT_BACKOFF,
      API_THROTTLE_STATUS_CODE]

/-- C3 witness: the amended theorem at concrete inputs. -/
theorem c3_witness :
    throttleAttempt (some fun _ => true) 0 9 = ⟨fib 9, 10, true, true⟩ ∧
    throttleAttempt none 0 9 = ⟨fib 9, 9, false, false⟩ ∧
    throttleAttempt (some fun _ => true) 5 13 = ⟨5, 10, true, true⟩ ∧
    throttleAttempt none 5 13 = ⟨5, 9, false, false⟩ ∧
    reqLoop (some fun _ => true) [r429ra5, r200ok] 9
      = some ⟨r200ok, 9, [5], 2⟩ := by
  have h := c3_backoff
  exact ⟨h.1 (fun _ => true) 9, h.2.1 9,
    h.2.2.1 (fun _ => true) 5 13 (by decide),
    h.2.2.2.1 5 13 (by decide),
    h.2.2.2.2 (fun _ => true) r200ok rfl (by decide)⟩

/-- A single throttled iteration never takes the step below the floor. -/
theorem throttleAttempt_step_ge (cb : Option (Nat → Bool)) (ra step : Nat)
    (h : DEFAULT_BACKOFF ≤ step) :
    DEFAULT_BACKOFF ≤ (throttleAttempt cb ra step).stepAfter := by
  simp only [DEFAULT_BACKOFF] at h ⊢
  cases cb <;> simp [throttleAttempt, DEFAULT_BACKOFF] <;> split <;> omega

/-- The `_req_wrapper` loop keeps the step at or above the floor. -/
theorem reqLoop_step_ge (cb : Option (Nat → Bool)) :
    ∀ (script : List Response) (step : Nat) (o : LoopOut),
      DEFAULT_BACKOFF ≤ step → reqLoop cb script step = some o →
      DEFAULT_BACKOFF ≤ o.step := by
  intro script
  induction script with
  | nil => intro step o h hr; exact absurd hr (by simp [reqLoop])
  | cons r rest ih =>
      intro step o h hr
      simp only [reqLoop] at hr
      split at hr
      · split at hr
        · cases hrec : reqLoop cb rest
              (throttleAttempt cb r.retryAfter step).stepAfter with
          | none => rw [hrec] at hr; exact absurd hr (by simp)
          | some o' =>
              rw [hrec] at hr
              have hstep := ih _ o' (throttleAttempt_step_ge cb r.retryAfter step h) hrec
              cases hr
              exact hstep
        · cases hr
          exact throttleAttempt_step_ge cb r.retryAfter step h
      · cases hr
        simp only [DEFAULT_BACKOFF] at h ⊢
        split <;> omega

/-- Across any sequence of calls on one session, the step stays at or
above the floor. -/
theorem runCalls_step_ge (cb : Option (Nat → Bool)) :
    ∀ (calls : List (List Response)) (step : Nat),
      DEFAULT_BACKOFF ≤ step → DEFAULT_BACKOFF ≤ runCalls cb calls step := by
  intro calls
  induction calls with
  | nil => intro step h; simpa [runCalls] using h
  | cons c cs ih =>
      intro step h
      show DEFAULT_BACKOFF ≤ List.foldl _ _ (c :: cs)
      rw [List.foldl_cons]
      cases hrec : reqLoop cb c step with
      | none => exact ih step h
      | some o => exact ih o.step (reqLoop_step_ge cb c step o h hrec)

/-- Unfolding one approved throttle (no `Retry-After`): the loop
recurses with the step incremented. -/
theorem reqLoop_throttle_true (rest : List Response) (s : Nat) :
    reqLoop (some fun _ => true) (r429plain :: rest) s
      = match reqLoop (some fun _ => true) rest (s + 1) with
        | none => none
        | some o => some ⟨o.resp, o.step, fib s :: o.waits, o.attempts + 1⟩ := by
  rw [reqLoop]
  simp [r429plain, API_THROTTLE_STATUS_CODE, throttleAttempt]

/-- `k` approved throttles advance the step by `k` and hand over to
the remaining script. -/
theorem reqLoop_replicate_step (k : Nat) (rest : List Response) :
    ∀ s : Nat,
      stepAfter? (reqLoop (some fun _ => true)
        (List.replicate k r429plain ++ rest) s)
      = stepAfter? (reqLoop (some fun _ => true) rest (s + k)) := by
  induction k with
  | zero => intro s; simp
  | succ k ih =>
      intro s
      rw [List.replicate_succ, List.cons_append, reqLoop_throttle_true]
      have harith : s + 1 + k = s + (k + 1) := by omega
      cases hrec : reqLoop (some fun _ => true)
          (List.replicate k r429plain ++ rest) (s + 1) with
      | none =>
          have hh := ih (s + 1)
          rw [hrec, harith] at hh
          simpa [stepAfter?] using hh
      | some o =>
          have hh := ih (s + 1)
          rw [hrec, harith] at hh
          simpa [stepAfter?] using hh

/-- C4: the backoff step never drops below the floor constant
`DEFAULT_BACKOFF` across any sequence of calls on one session (first
conjunct), and no ceiling exists: for every `n`, a run of `n + 1`
approved throttles (no `Retry-After`) followed by one success leaves
the step at floor + n, exceeding any fixed bound as `n` grows (second
conjunct). -/
theorem c4_backoff_floor :
    (∀ (cb : Option (Nat → Bool)) (calls : List (List Response)) (step : Nat),
      DEFAULT_BACKOFF ≤ step → DEFAULT_BACKOFF ≤ runCalls cb calls step) ∧
    (∀ n : Nat,
      stepAfter? (reqLoop (some fun _ => true)
        (List.replicate (n + 1) r429plain ++ [r200ok]) DEFAULT_BACKOFF)
        = some (DEFAULT_BACKOFF + n)) := by
  constructor
  · exact fun cb calls step h => runCalls_step_ge cb calls step h
  · intro n
    rw [reqLoop_replicate_step]
    rw [reqLoop]
    simp only [r200ok, API_THROTTLE_STATUS_CODE, stepAfter?, DEFAULT_BACKOFF]
    norm_num

/-- C4 witness: the theorem at concrete inputs. -/
theorem c4_witness :
    DEFAULT_BACKOFF ≤ runCalls none [] DEFAULT_BACKOFF ∧
    stepAfter? (reqLoop (some fun _ => true)
      (List.replicate 1 r429plain ++ [r200ok]) DEFAULT_BACKOFF)
      = some (DEFAULT_BACKOFF + 0) :=
  ⟨c4_backoff_floor.1 none [] DEFAULT_BACKOFF (le_refl _),
   c4_backoff_floor.2 0⟩

/-- C5: for a 3-page run (pages 1 and 2 advertise a `next` link, page
3 does not; all pages 200 with parsed dict bodies), the walker yields
exactly the three page bodies in order, issues exactly 3 HTTP requests
— the first to the joined caller URL with the caller's processed
kwargs, each follow-up to exactly the advertised next URL with *no*
caller-supplied parameters — and the item stream is exactly the
concatenation of the three `items` arrays. -/
theorem c5_pagination
    (server : String → List Response) (base u1 u2 u3 : String)
    (kwargs kw1 : List (String × PyVal)) (apiattr : List String)
    (r1 r2 r3 : Response) (m1 m2 m3 : Option String) (i1 i2 i3 : List Item)
    (h2a : isAbsoluteUrl u2 = true) (h3a : isAbsoluteUrl u3 = true)
    (hsv1 : server (urljoin base u1) = [r1])
    (hsv2 : server u2 = [r2]) (hsv3 : server u3 = [r3])
    (hst1 : r1.status = 200) (hst2 : r2.status = 200) (hst3 : r3.status = 200)
    (hb1 : r1.body = .obj m1 (some i1)) (hb2 : r2.body = .obj m2 (some i2))
    (hb3 : r3.body = .obj m3 (some i3))
    (hn1 : r1.nextUrl = some u2) (hn2 : r2.nextUrl = some u3)
    (hn3 : r3.nextUrl = none)
    (hk : processArgs "GET" apiattr kwargs = Except.ok kw1) :
    getPagesAux none server base apiattr 3 u1 kwargs none DEFAULT_BACKOFF
      = some ⟨[.obj m1 (some i1), .obj m2 (some i2), .obj m3 (some i3)],
          [⟨urljoin base u1, kw1, 1, [], DEFAULT_BACKOFF, some r1, .ok r1⟩,
           ⟨u2, [], 1, [], DEFAULT_BACKOFF, some r2, .ok r2⟩,
           ⟨u3, [], 1, [], DEFAULT_BACKOFF, some r3, .ok r3⟩],
          none, DEFAULT_BACKOFF⟩ ∧
    (getPagesAux none server base apiattr 3 u1 kwargs none DEFAULT_BACKOFF).map
        walkRequestCount = some 3 ∧
    (getPagesAux none server base apiattr 3 u1 kwargs none DEFAULT_BACKOFF).map
        getItemsModel = some (i1 ++ i2 ++ i3, none) := by
  have e2 : urljoin base u2 = u2 := by simp [urljoin, h2a]
  have e3 : urljoin base u3 = u3 := by simp [urljoin, h3a]
  have hemp : processArgs "GET" apiattr ([] : List (String × PyVal))
      = Except.ok [] := by simp [processArgs, splitArgs]
  have hmain : getPagesAux none server base apiattr 3 u1 kwargs none DEFAULT_BACKOFF
      = some ⟨[.obj m1 (some i1), .obj m2 (some i2), .obj m3 (some i3)],
          [⟨urljoin base u1, kw1, 1, [], DEFAULT_BACKOFF, some r1, .ok r1⟩,
           ⟨u2, [], 1, [], DEFAULT_BACKOFF, some r2, .ok r2⟩,
           ⟨u3, [], 1, [], DEFAULT_BACKOFF, some r3, .ok r3⟩],
          none, DEFAULT_BACKOFF⟩ := by
    simp [getPagesAux, processModel, ercListOf, defaultERC, e2, e3,
      hsv1, hsv2, hsv3, hk, hemp, reqLoop, hst1, hst2, hst3,
      API_THROTTLE_STATUS_CODE, DEFAULT_BACKOFF, extractAndParseJson,
      hb1, hb2, hb3, hn1, hn2, hn3, validate, ercFilter]
  refine ⟨hmain, ?_, ?_⟩
  · rw [hmain]
    simp [walkRequestCount]
  · rw [hmain]
    simp [getItemsModel, flattenItems]

/-- Page 1 of the concrete 3-page scenario. -/
def page1resp : Response :=
  ⟨200, 0, .obj none (some ["a"]), some "https://api.test/widgets?cursor=2", "GET p1"⟩

/-- Page 2 of the concrete 3-page scenario. -/
def page2resp : Response :=
  ⟨200, 0, .obj none (some ["b"]), some "https://api.test/widgets?cursor=3", "GET p2"⟩

/-- Page 3 of the concrete 3-page scenario (no next link). -/
def page3resp : Response :=
  ⟨200, 0, .obj none (some ["c"]), none, "GET p3"⟩

/-- A concrete paginated server. -/
def pageServer : String → List Response := fun u =>
  if u = "https://api.test/widgets" then [page1resp]
  else if u = "https://api.test/widgets?cursor=2" then [page2resp]
  else if u = "https://api.test/widgets?cursor=3" then [page3resp]
  else []

/-- C5 witness: the pagination theorem at the concrete 3-page server. -/
theorem c5_witness :
    getPagesAux none pageServer "https://api.test/" [] 3 "widgets" [] none
        DEFAULT_BACKOFF
      = some ⟨[.obj none (some ["a"]), .obj none (some ["b"]), .obj none (some ["c"])],
          [⟨urljoin "https://api.test/" "widgets", [], 1, [], DEFAULT_BACKOFF,
              some page1resp, .ok page1resp⟩,
           ⟨"https://api.test/widgets?cursor=2", [], 1, [], DEFAULT_BACKOFF,
              some page2resp, .ok page2resp⟩,
           ⟨"https://api.test/widgets?cursor=3", [], 1, [], DEFAULT_BACKOFF,
              some page3resp, .ok page3resp⟩],
          none, DEFAULT_BACKOFF⟩ ∧
    (getPagesAux none pageServer "https://api.test/" [] 3 "widgets" [] none
        DEFAULT_BACKOFF).map walkRequestCount = some 3 ∧
    (getPagesAux none pageServer "https://api.test/" [] 3 "widgets" [] none
        DEFAULT_BACKOFF).map getItemsModel
      = some (["a"] ++ ["b"] ++ ["c"], none) :=
  c5_pagination pageServer "https://api.test/" "widgets"
    "https://api.test/widgets?cursor=2" "https://api.test/widgets?cursor=3"
    [] [] [] page1resp page2resp page3resp none none none ["a"] ["b"] ["c"]
    (by decide) (by decide) (by decide) (by decide) (by decide)
    (by decide) (by decide) (by decide) (by decide) (by decide) (by decide)
    (by decide) (by decide) (by decide) rfl

/-- C6: whenever a decoded page body lacks the `items` key, the item
stream stops with `ciscosparkapiException` exactly there: the items
yielded are precisely the concatenation of the preceding pages'
`items`, and nothing from the offending page or any later page is
yielded (first conjunct); a page whose `items` value is present but
empty is not an error and contributes no items (second conjunct). -/
theorem c6_missing_items (pre post : List JsonBody) (bad : JsonBody)
    (m : Option String)
    (hpre : ∀ p ∈ pre, isItemsPage p = true) (hbad : bad = .obj m none) :
    flattenItems (pre ++ bad :: post)
      = ((pre.map pageItems).flatten, some PyErr.sparkException) ∧
    (∀ (m' : Option String) (rest : List JsonBody),
      flattenItems (.obj m' (some []) :: rest) = flattenItems rest) := by
  constructor
  · induction pre with
    | nil => simp [flattenItems, hbad]
    | cons p ps ih =>
        have hp := hpre p (List.mem_cons_self p ps)
        have hps : ∀ q ∈ ps, isItemsPage q = true :=
          fun q hq => hpre q (List.mem_cons_of_mem p hq)
        cases p with
        | obj mm its? =>
            cases its? with
            | some its => simp [flattenItems, ih hps, pageItems]
            | none => simp [isItemsPage] at hp
        | nonObj => simp [isItemsPage] at hp
        | unparseable => simp [isItemsPage] at hp
  · intro m' rest
    simp [flattenItems]

/-- C6 witness: the theorem at a concrete 3-page stream whose middle
page lacks `items`, plus the empty-items instance. -/
theorem c6_witness :
    flattenItems [.obj none (some ["a"]), .obj (some "x") none,
        .obj none (some ["z"])]
      = (["a"], some PyErr.sparkException) ∧
    flattenItems [.obj none (some []), .obj none (some ["z"])]
      = flattenItems [.obj none (some ["z"])] := by
  have h := c6_missing_items [.obj none (some ["a"])] [.obj none (some ["z"])]
    (.obj (some "x") none) (some "x") (by decide) rfl
  exact ⟨by simpa [pageItems] using h.1, h.2 none [.obj none (some ["z"])]⟩

/-- Did this argument-processing call return normally? -/
def isOkE : Except PyErr (List (String × PyVal)) → Bool
  | .ok _ => true
  | .error _ => false

/-- The keys of the kwargs a successful `_process_args` hands on. -/
def okKeys : Except PyErr (List (String × PyVal)) → List String
  | .ok l => l.map Prod.fst
  | .error _ => []

/-- A key not in `apiattr` survives the split into the remaining
transport kwargs. -/
theorem splitArgs_keep (apiattr : List String) :
    ∀ (args : List (String × PyVal)) (k : String),
      k ∈ args.map Prod.fst → k ∉ apiattr →
      k ∈ (splitArgs apiattr args).1.map Prod.fst := by
  intro args
  induction args with
  | nil => intro k h _; simp at h
  | cons kv rest ih =>
      intro k h hka
      obtain ⟨k0, v0⟩ := kv
      rw [List.map_cons] at h
      rcases List.mem_cons.mp h with heq | hmem
      · subst heq
        simp [splitArgs, hka]
      · have hrec := ih k hmem hka
        by_cases hk0 : k0 ∈ apiattr <;> simp [splitArgs, hk0, hrec]

/-- C7 (amended): no unsupported-argument check exists.  For each of
the four verbs, `_process_args` always returns normally, and a kwarg
whose key is not among the eligible payload fields simply remains in
the transport kwargs handed to the underlying HTTP library (where an
unknown keyword would surface only as the library's own `TypeError`
at the point of the request call, not as any error of the session
layer before it). -/
theorem c7_no_unsupported_check (what : String) (apiattr : List String)
    (args : List (String × PyVal)) (k : String)
    (hwhat : what = "GET" ∨ what = "POST" ∨ what = "PUT" ∨ what = "DELETE")
    (hk : k ∈ args.map Prod.fst) (hka : k ∉ apiattr) :
    isOkE (processArgs what apiattr args) = true ∧
    k ∈ okKeys (processArgs what apiattr args) := by
  have hkeep := splitArgs_keep apiattr args k hk hka
  by_cases hempty : (splitArgs apiattr args).2.isEmpty
  · constructor
    · simp [processArgs, hempty, isOkE]
    · simpa [processArgs, hempty, okKeys] using hkeep
  · rcases hwhat with h | h | h | h <;> subst h <;>
      constructor <;>
      simp [processArgs, hempty, isOkE, okKeys, hkeep]

/-- C7, counterexample.  The claim says a call with an unrecognized
transport kwarg fails with an `UnsupportedArgument` error before any
network request.  No such check exists anywhere in the code:
`_process_args` returns normally with the unknown kwarg `foo` kept in
the kwargs. -/
theorem c7_counterexample :
    processArgs "GET" [] [("foo", PyVal.num 1)]
      = Except.ok [("foo", PyVal.num 1)] := rfl

/-- C7 witness: the amended theorem at a concrete unknown kwarg. -/
theorem c7_witness :
    isOkE (processArgs "GET" [] [("foo", PyVal.num 1)]) = true ∧
    "foo" ∈ okKeys (processArgs "GET" [] [("foo", PyVal.num 1)]) :=
  c7_no_unsupported_check "GET" [] [("foo", PyVal.num 1)] "foo"
    (Or.inl rfl) (by simp) (by simp)

/-- A 409 whose body is not parseable JSON. -/
def r409bad : Response := ⟨409, 0, .unparseable, none, "POST /memberships"⟩

/-- A 409 whose body is a dict without a `message` field. -/
def r409noMsg : Response := ⟨409, 0, .obj none none, none, "POST /memberships"⟩

/-- C8, counterexample.  The claim says that when the `message` field
is absent or the body unparseable, the error message is empty rather
than the construction itself failing.  In the code, an unparseable
body makes `SparkApiError.__init__` raise (no error object is built
at all), and an absent `message` field yields the text rendering
`"None"`, not an empty message. -/
theorem c8_counterexample :
    mkSparkApiError 409 r409bad = Except.error PyErr.valueErrorJson ∧
    mkSparkApiError 409 r409noMsg
      = Except.ok (PyErr.api 409 "POST /memberships" r409noMsg none
          "Response Code [409] - None") := ⟨rfl, rfl⟩

/-- C8 (amended): when validation fails on a response whose body
parses as a dict, the raised `SparkApiError` carries the numeric
status code, the original request, the original response, and a
message built from the body's `message` field (rendered as the text
`"None"` when the field is absent); when the body cannot be parsed,
the construction itself fails and the parse error propagates. -/
theorem c8_error_payload (erc : List Nat) (r : Response)
    (hout : r.status ∉ erc) :
    (∀ (msg : Option String) (its : Option (List Item)),
      r.body = .obj msg its →
      validate erc r = Except.error (.api r.status r.request r msg
        ("Response Code [" ++ toString r.status ++ "] - " ++ pyStr msg))) ∧
    (r.body = .unparseable →
      validate erc r = Except.error PyErr.valueErrorJson) := by
  constructor
  · intro msg its hb
    rw [validate, if_neg hout]
    simp [mkSparkApiError, hb]
  · intro hb
    rw [validate, if_neg hout]
    simp [mkSparkApiError, hb]

/-- C8 witness: the amended theorem at a concrete failed validation. -/
theorem c8_witness :
    validate [200] r404obj = Except.error (PyErr.api 404 "GET /things"
      r404obj (some "Not Found") "Response Code [404] - Not Found") :=
  (c8_error_payload [200] r404obj (by decide)).1 (some "Not Found") none rfl

/-- `RestSession.post` (lines 292-293):
`_extract_and_parse_json(self._process('POST', url, apiattr, **kwargs))`. -/
def postModel (callback : Option (Nat → Bool))
    (server : String → List Response) (base url : String)
    (apiattr : List String) (kwargs : List (String × PyVal))
    (ercArg : Option ErcArg) (step : Nat) :
    Option (ProcOut × Except PyErr JsonBody) :=
  match processModel callback server base "POST" url apiattr kwargs ercArg step with
  | none => none
  | some p =>
      match p.result with
      | .error e => some (p, .error e)
      | .ok r => some (p, extractAndParseJson r)

/-- C9: a `create()` (POST) with accepted codes `[200, 409]` answered
by a 409 with a parseable dict body returns normally — the result is
the parsed body, no exception — and the session's last-response slot
holds that 409 response (first conjunct); the recording is a deep
copy: the `_last_response` reference is distinct from the live
response object, so mutating the live object afterwards leaves what
the caller inspects unchanged (second conjunct). -/
theorem c9_create_conflict (cb : Option (Nat → Bool))
    (server : String → List Response) (base url : String)
    (apiattr : List String) (kwargs kw : List (String × PyVal))
    (r : Response) (m : Option String) (its : Option (List Item))
    (hsv : server (urljoin base url) = [r]) (hst : r.status = 409)
    (hb : r.body = .obj m its)
    (hk : processArgs "POST" apiattr kwargs = Except.ok kw) :
    postModel cb server base url apiattr kwargs (some (.list [200, 409]))
        DEFAULT_BACKOFF
      = some (⟨urljoin base url, kw, 1, [], DEFAULT_BACKOFF, some r,
          Except.ok r⟩, Except.ok (.obj m its)) ∧
    (∀ (store : List Response) (live : Nat) (v d : Response),
      live < store.length →
      ((recordLastResponse store live d).1.set live v).getD
          (recordLastResponse store live d).2 d = store.getD live d ∧
      (recordLastResponse store live d).2 ≠ live) := by
  constructor
  · simp [postModel, processModel, ercListOf, hsv, hk, reqLoop, hst,
      API_THROTTLE_STATUS_CODE, DEFAULT_BACKOFF, extractAndParseJson, hb,
      validate, ercFilter]
  · intro store live v d hlt
    constructor
    · simp only [recordLastResponse]
      rw [List.set_append_left live v hlt]
      have hlen : (store.set live v).length = store.length := by simp
      rw [List.getD_eq_getElem?_getD, List.getD_eq_getElem?_getD]
      rw [← hlen]
      rw [List.getElem?_concat_length]
      simp [List.getElem?_eq_getElem hlt]
    · simp only [recordLastResponse]
      omega

/-- The 409 conflict response of the concrete create() scenario. -/
def conflictResp : Response :=
  ⟨409, 0, .obj (some "already exists") none, none, "POST /memberships"⟩

/-- A server answering the memberships POST with the 409 conflict. -/
def conflictServer : String → List Response := fun u =>
  if u = "https://api.test/memberships" then [conflictResp] else []

/-- C9 witness: the theorem at the concrete 409 scenario, including a
concrete mutation of the live response object that leaves the
recorded copy unchanged. -/
theorem c9_witness :
    postModel none conflictServer "https://api.test/" "memberships" [] []
        (some (.list [200, 409])) DEFAULT_BACKOFF
      = some (⟨urljoin "https://api.test/" "memberships", [], 1, [],
          DEFAULT_BACKOFF, some conflictResp, Except.ok conflictResp⟩,
          Except.ok (.obj (some "already exists") none)) ∧
    ((recordLastResponse [conflictResp] 0 r200ok).1.set 0 r404obj).getD
        (recordLastResponse [conflictResp] 0 r200ok).2 r200ok
      = [conflictResp].getD 0 r200ok := by
  have h := c9_create_conflict none conflictServer "https://api.test/"
    "memberships" [] [] [] conflictResp (some "already exists") none
    (by decide) rfl rfl rfl
  exact ⟨h.1, (h.2 [conflictResp] 0 r404obj r200ok (by decide)).1⟩

/-- C10: when the caller passes the `erc` override as a list object
containing 429, `_process` aliases it (`ercList = erc`) and calls
`ercList.remove(429)`, mutating the caller's own list object in
place: afterwards the caller's reference shows the list with the
first 429 deleted — observably different from before — and the very
same reference is what validation uses; no other heap object is
touched by the filter. -/
theorem c10_erc_inplace (heap : List (List Nat)) (ρ : Nat)
    (hlt : ρ < heap.length)
    (hmem : API_THROTTLE_STATUS_CODE ∈ heap.getD ρ []) :
    (processErcHeap heap ρ).2 = ρ ∧
    (processErcHeap heap ρ).1.getD ρ []
      = (heap.getD ρ []).erase API_THROTTLE_STATUS_CODE ∧
    (processErcHeap heap ρ).1.getD ρ [] ≠ heap.getD ρ [] ∧
    (∀ σ, σ ≠ ρ →
      (processErcHeap heap ρ).1.getD σ [] = heap.getD σ []) := by
  have hmem' : API_THROTTLE_STATUS_CODE ∈ heap[ρ]?.getD [] := by
    simpa using hmem
  have h1 : (processErcHeap heap ρ).1
      = heap.set ρ ((heap.getD ρ []).erase API_THROTTLE_STATUS_CODE) := by
    simp [processErcHeap, hmem']
  have h2 : (processErcHeap heap ρ).1.getD ρ []
      = (heap.getD ρ []).erase API_THROTTLE_STATUS_CODE := by
    rw [h1, List.getD_eq_getElem?_getD, List.getElem?_set_self hlt]
    simp
  refine ⟨by simp [processErcHeap, hmem'], h2, ?_, ?_⟩
  · rw [h2]
    intro heq
    have hlen := List.length_erase_of_mem hmem
    have hne : heap.getD ρ [] ≠ [] := List.ne_nil_of_mem hmem
    have hpos : 0 < (heap.getD ρ []).length := List.length_pos.mpr hne
    rw [heq] at hlen
    omega
  · intro σ hσ
    rw [h1, List.getD_eq_getElem?_getD,
      List.getElem?_set_ne (Ne.symm hσ), ← List.getD_eq_getElem?_getD]

/-- C10 witness: the theorem on a one-object heap holding the list
`[429, 200]`. -/
theorem c10_witness :
    (processErcHeap [[429, 200]] 0).2 = 0 ∧
    (processErcHeap [[429, 200]] 0).1.getD 0 [] = [200] ∧
    (processErcHeap [[429, 200]] 0).1.getD 1 [] = [[429, 200]].getD 1 [] := by
  have h := c10_erc_inplace [[429, 200]] 0 (by decide) (by decide)
  exact ⟨h.1, h.2.1, h.2.2.2 1 (by decide)⟩
